import Mathlib

/-!
# Shallow embedding of the shared-surface sync core

This file embeds the client-side synchronization layer of the repository
(`src/services/storageService.ts`) in Lean 4 and proves the specification
claims about it.

Modelling conventions:
* The TypeScript class `StorageService` holds four pieces of mutable state
  (`cache`, `pendingOperations`, `isProcessing`, `lastVersion`); we model it
  as the structure `ServiceState` and translate each method as a pure
  function from a state (plus the outcomes of any network calls, passed as
  explicit parameters) to a new state and the method's return value.
* Pending operations are closures in the source; since each closure is one
  of the three mutation shapes built in `addObject` / `updateObject` /
  `removeObject`, we represent them as the inductive `PendingOp` and their
  effect on the cached document as `applyOp`.
* A flush (`processPendingOperations`) has exactly one suspension point: the
  `await fetch(..., PUT ...)`.  We split it into `flushBegin` (everything
  before the await: the guard, applying the queued operations, the version
  bump, issuing the PUT) and `flushResolve` (everything after: recording the
  new version on success, discarding the queue on failure, clearing the
  in-flight flag).  `processPendingOperations` is their composition; the
  split lets interleavings of two flushes be expressed (`stepEvent`,
  `runEvents`).
* Network results are data: `LoadOutcome` for the GET in `loadObjects`
  (failure covers network errors, non-2xx statuses and unparsable bodies,
  all of which land in the same `catch`), a `Bool` for whether the PUT in a
  flush succeeded.
* JavaScript `x || d` on a possibly-missing field is `jsOr*`: it replaces
  `undefined`/`null` and the falsy values `0` and `""` by the default, and
  keeps everything else (note `[] || d = []`, the empty array is truthy).
* Numbers are modelled as `Int` for coordinates (no arithmetic is performed
  on them) and `Nat` for the version counter; timestamps are opaque strings
  supplied as a `now` parameter.
-/

/-- `StoredObject` from `storageService.ts` (lines 2–11): one placeable item.
The optional `isText?: boolean` becomes `Option Bool`. -/
structure StoredObject where
  id : String
  name : String
  x : Int
  y : Int
  type : String
  emoji : String
  color : String
  isText : Option Bool
deriving DecidableEq, Repr

/-- `StorageData` from `storageService.ts` (lines 13–17): the whole remote
document. -/
structure StorageData where
  objects : List StoredObject
  lastUpdated : String
  version : Nat
deriving DecidableEq, Repr

/-- The three mutation closures built by `addObject` (lines 130–136),
`updateObject` (lines 146–152) and `removeObject` (lines 162–166). -/
inductive PendingOp where
  | add (object : StoredObject)
  | update (objectId : String) (x y : Int)
  | remove (objectId : String)
deriving DecidableEq, Repr

/-- Effect of one queued closure on the cached document (the closure bodies at
lines 131–135, 147–151 and 163–165; each runs under `if (this.cache)`, which
holds whenever a flush applies them). -/
def applyOp (d : StorageData) (op : PendingOp) : StorageData :=
  match op with
  | .add object =>
      { d with objects :=
          (d.objects.filter (fun obj => obj.id != object.id)) ++ [object] }
  | .update objectId x y =>
      { d with objects :=
          d.objects.map (fun obj =>
            if obj.id == objectId then { obj with x := x, y := y } else obj) }
  | .remove objectId =>
      { d with objects := d.objects.filter (fun obj => obj.id != objectId) }

/-- The mutable fields of the `StorageService` class (lines 23–26). -/
structure ServiceState where
  cache : Option StorageData
  pendingOperations : List PendingOp
  isProcessing : Bool
  lastVersion : Nat
deriving DecidableEq, Repr

/-- The state of a freshly constructed service (field initialisers at
lines 23–26). -/
def initialState : ServiceState :=
  { cache := none, pendingOperations := [], isProcessing := false,
    lastVersion := 0 }

/-- JavaScript `v || d` for a possibly-missing number field (`0`,
`undefined` and `null` are falsy). -/
def jsOrNat (v : Option Nat) (d : Nat) : Nat :=
  match v with
  | none => d
  | some n => if n = 0 then d else n

/-- JavaScript `v || d` for a possibly-missing string field (`""`,
`undefined` and `null` are falsy). -/
def jsOrStr (v : Option String) (d : String) : String :=
  match v with
  | none => d
  | some s => if s = "" then d else s

/-- JavaScript `v || d` for a possibly-missing array field (an array, even
empty, is truthy). -/
def jsOrList (v : Option (List StoredObject)) (d : List StoredObject) :
    List StoredObject :=
  match v with
  | none => d
  | some l => l

/-- The parsed `data.record` of a 2xx GET response: each field may be absent
(`record.objects || []` etc. at lines 60–62 supply the defaults). -/
structure RawRecord where
  objects : Option (List StoredObject)
  lastUpdated : Option String
  version : Option Nat
deriving DecidableEq, Repr

/-- Outcome of the GET in `loadObjects`: `failure` is anything that reaches
the `catch` (network error, non-2xx status, unparsable body); `success r?`
is a parsed 2xx body whose `record` field is `r?` (`none` when
`data.record` is falsy, handled by the default at line 56). -/
inductive LoadOutcome where
  | failure
  | success (record : Option RawRecord)
deriving DecidableEq, Repr

/-- `loadObjects` (lines 41–77): on success replace the cache by the fetched
document (with `||`-defaults) and record its version as `lastVersion`; on any
failure install the empty document `{objects: [], lastUpdated: now,
version: 1}` and return `[]` — the error is swallowed, never rethrown. -/
def loadObjects (s : ServiceState) (outcome : LoadOutcome) (now : String) :
    ServiceState × List StoredObject :=
  match outcome with
  | .failure =>
      ({ s with cache := some { objects := [], lastUpdated := now, version := 1 } },
       [])
  | .success record? =>
      let record : RawRecord :=
        match record? with
        | none => { objects := some [], lastUpdated := some now, version := some 1 }
        | some r => r
      let c : StorageData :=
        { objects := jsOrList record.objects [],
          lastUpdated := jsOrStr record.lastUpdated now,
          version := jsOrNat record.version 1 }
      ({ s with cache := some c, lastVersion := c.version }, c.objects)

/-- `getCurrentObjects` (lines 200–202): `this.cache?.objects || []`. -/
def getCurrentObjects (s : ServiceState) : List StoredObject :=
  match s.cache with
  | none => []
  | some c => c.objects

/-- `queueOperation` (lines 120–123): push the closure onto the pending list.
(The debounced-save scheduling it also triggers is wall-clock behaviour; the
flush itself is `flushBegin`/`flushResolve` below.) -/
def queueOperation (s : ServiceState) (op : PendingOp) : ServiceState :=
  { s with pendingOperations := s.pendingOperations ++ [op] }

/-- First half of `processPendingOperations` (lines 80–102), up to the
`await` on the PUT: the guard at line 80 (in-flight, empty queue, or absent
cache ⇒ return `true` having done nothing), then set `isProcessing`, apply
every queued operation in FIFO order, clear the queue, set `version :=
lastVersion + 1` and `lastUpdated := now`, and issue the PUT whose body is
the whole cache.  Returns the new state and `some body` iff a PUT was
issued. -/
def flushBegin (s : ServiceState) (now : String) :
    ServiceState × Option StorageData :=
  match s.cache with
  | none => (s, none)
  | some c =>
      if s.isProcessing || s.pendingOperations.isEmpty then (s, none)
      else
        let c1 := s.pendingOperations.foldl applyOp c
        let c2 := { c1 with version := s.lastVersion + 1, lastUpdated := now }
        ({ s with cache := some c2, pendingOperations := [],
                  isProcessing := true },
         some c2)

/-- Second half of `processPendingOperations` (lines 104–117), after the PUT
resolves with success flag `ok`: on success record `this.cache.version` as
`lastVersion` and return `true`; on failure clear the pending queue (line
113 — operations are discarded, not re-queued) and return `false`; either
way the `finally` clears `isProcessing`. -/
def flushResolve (s : ServiceState) (ok : Bool) : ServiceState × Bool :=
  if ok then
    ({ s with
        lastVersion := match s.cache with
          | some c => c.version
          | none => s.lastVersion,
        isProcessing := false },
     true)
  else
    ({ s with pendingOperations := [], isProcessing := false }, false)

/-- Everything a completed `processPendingOperations` call exposes: the final
state, the returned boolean, and whether (and with what body) a PUT was
issued. -/
structure FlushOutcome where
  state : ServiceState
  result : Bool
  putIssued : Bool
  putBody : Option StorageData
deriving DecidableEq, Repr

/-- `processPendingOperations` (lines 79–118) run to completion with no
interleaved activity: `flushBegin` followed, when a PUT was issued, by
`flushResolve` with the PUT's success flag `putOk`. -/
def processPendingOperations (s : ServiceState) (now : String) (putOk : Bool) :
    FlushOutcome :=
  match flushBegin s now with
  | (s1, none) => { state := s1, result := true, putIssued := false, putBody := none }
  | (s1, some body) =>
      let r := flushResolve s1 putOk
      { state := r.1, result := r.2, putIssued := true, putBody := some body }

/-- `forceSave` (lines 194–197): run `processPendingOperations` immediately
and return its boolean.  (The `clearTimeout` on line 195 reads a `.timeout`
property the debounce closure never sets, so it has no effect on state.) -/
def forceSave (s : ServiceState) (now : String) (putOk : Bool) : FlushOutcome :=
  processPendingOperations s now putOk

/-- `addObject` (lines 125–139): load first if the cache is absent (the GET's
outcome and timestamp are the `outcome`/`loadNow` parameters), queue the
replace-then-append closure, and return `true` immediately. -/
def addObject (s : ServiceState) (object : StoredObject)
    (outcome : LoadOutcome) (loadNow : String) : ServiceState × Bool :=
  let s1 := match s.cache with
    | none => (loadObjects s outcome loadNow).1
    | some _ => s
  (queueOperation s1 (.add object), true)

/-- `updateObject` (lines 141–155): like `addObject`, queueing the
position-replacing closure. -/
def updateObject (s : ServiceState) (objectId : String) (x y : Int)
    (outcome : LoadOutcome) (loadNow : String) : ServiceState × Bool :=
  let s1 := match s.cache with
    | none => (loadObjects s outcome loadNow).1
    | some _ => s
  (queueOperation s1 (.update objectId x y), true)

/-- `removeObject` (lines 157–169): like `addObject`, queueing the filtering
closure. -/
def removeObject (s : ServiceState) (objectId : String)
    (outcome : LoadOutcome) (loadNow : String) : ServiceState × Bool :=
  let s1 := match s.cache with
    | none => (loadObjects s outcome loadNow).1
    | some _ => s
  (queueOperation s1 (.remove objectId), true)

/-- `syncObjects` (lines 171–191): load the latest server document (that call
swallows its own failures, so the surrounding `catch` is unreachable), then
append every local object whose id `find`s no match among the server
objects. -/
def syncObjects (s : ServiceState) (outcome : LoadOutcome) (now : String)
    (localObjects : List StoredObject) :
    ServiceState × List StoredObject :=
  let r := loadObjects s outcome now
  let serverObjects := r.2
  let mergedObjects := localObjects.foldl
    (fun merged localObj =>
      if (serverObjects.find? (fun serverObj => serverObj.id == localObj.id)).isSome
      then merged
      else merged ++ [localObj])
    serverObjects
  (r.1, mergedObjects)

/-- The empty-document shape `{items: [], version: 1, lastUpdated: now}`. -/
def emptyDocument (now : String) : StorageData :=
  { objects := [], lastUpdated := now, version := 1 }

/-- Modelled from the spec: `resetObjects` is invoked by the presentation
layer (`handleCustomObject` in `src/unnamed/part_000`, the `"__reset"`
branch) but its definition is missing from the source files under `src/`.
Per spec §4.5 and the `resetAll` signature in §6, it reinitialises the
Remote Store's document to the empty-document shape, bypassing the operation
queue and the flush debounce and acting immediately: the service state is
untouched apart from no queue interaction, and exactly one immediate PUT of
the empty document is issued. -/
def resetObjects (s : ServiceState) (now : String) :
    ServiceState × StorageData :=
  (s, emptyDocument now)

/-- The `"__reset"` branch of `handleCustomObject`
(`src/unnamed/part_000`, lines 226–235): await `resetObjects`, then clear
the caller's local view (`setObjects([])`).  Returns the new UI item list,
the service state, and the PUT body sent to the remote store. -/
def handleReset (s : ServiceState) (now : String) :
    List StoredObject × ServiceState × StorageData :=
  let r := resetObjects s now
  ([], r.1, r.2)

/-- One event-loop task boundary for the interleaving model: starting a
flush (up to its `await`), the pending PUT resolving, or an enqueue. -/
inductive SyncEvent where
  | beginFlush (now : String)
  | resolveFlush (ok : Bool)
  | enqueueOp (op : PendingOp)
deriving DecidableEq, Repr

/-- Execute one event; the `Nat` counts PUT requests issued by this event.
`resolveFlush` only has an effect when a flush is actually in flight. -/
def stepEvent (s : ServiceState) (e : SyncEvent) : ServiceState × Nat :=
  match e with
  | .beginFlush now =>
      let r := flushBegin s now
      (r.1, if r.2.isSome then 1 else 0)
  | .resolveFlush ok =>
      if s.isProcessing then ((flushResolve s ok).1, 0) else (s, 0)
  | .enqueueOp op => (queueOperation s op, 0)

/-- Run a sequence of interleaved events, accumulating the PUT count. -/
def runEvents (s : ServiceState) (es : List SyncEvent) : ServiceState × Nat :=
  es.foldl (fun acc e =>
    let r := stepEvent acc.1 e
    (r.1, acc.2 + r.2)) (s, 0)

/-- One debounce cycle: enqueue a burst of operations, then run the resulting
flush to completion with a successful PUT. -/
def flushRound (s : ServiceState) (ops : List PendingOp) (now : String) :
    ServiceState :=
  (processPendingOperations (ops.foldl queueOperation s) now true).state

/-- A sequence of debounce cycles, each a burst of operations followed by a
successful flush. -/
def runRounds (s : ServiceState) (rounds : List (List PendingOp × String)) :
    ServiceState :=
  rounds.foldl (fun st r => flushRound st r.1 r.2) s

/-- A concrete item, used to instantiate the theorems on closed inputs. -/
def sampleObject (i : String) (x y : Int) : StoredObject :=
  { id := i, name := i, x := x, y := y, type := "toy", emoji := "🎲",
    color := "bg-white", isText := none }

/-! ## Helper lemmas -/

lemma foldl_queueOperation (ops : List PendingOp) (s : ServiceState) :
    ops.foldl queueOperation s =
      { s with pendingOperations := s.pendingOperations ++ ops } := by
  induction ops generalizing s with
  | nil => simp
  | cons op ops ih => simp [queueOperation, ih]

lemma flushBegin_noop (s : ServiceState) (now : String)
    (h : s.isProcessing = true ∨ s.pendingOperations = [] ∨ s.cache = none) :
    flushBegin s now = (s, none) := by
  rcases h with h | h | h
  · cases hc : s.cache <;> simp [flushBegin, hc, h]
  · cases hc : s.cache <;> simp [flushBegin, hc, h]
  · simp [flushBegin, h]

lemma flushBegin_run (s : ServiceState) (c : StorageData) (now : String)
    (hc : s.cache = some c) (hp : s.isProcessing = false)
    (hq : s.pendingOperations ≠ []) :
    flushBegin s now =
      ({ s with
          cache := some { s.pendingOperations.foldl applyOp c with
                          version := s.lastVersion + 1, lastUpdated := now },
          pendingOperations := [], isProcessing := true },
       some { s.pendingOperations.foldl applyOp c with
              version := s.lastVersion + 1, lastUpdated := now }) := by
  have hq' : s.pendingOperations.isEmpty = false := by
    simp [List.isEmpty_iff, hq]
  simp [flushBegin, hc, hp, hq']

lemma merge_foldl (serverObjects : List StoredObject) :
    ∀ (localObjects acc : List StoredObject),
      localObjects.foldl
        (fun merged localObj =>
          if (serverObjects.find? (fun serverObj => serverObj.id == localObj.id)).isSome
          then merged
          else merged ++ [localObj]) acc
      = acc ++ localObjects.filter
          (fun o => decide (∀ so ∈ serverObjects, so.id ≠ o.id)) := by
  intro localObjects
  induction localObjects with
  | nil => intro acc; simp
  | cons o L ih =>
      intro acc
      rw [List.foldl_cons, List.filter_cons]
      cases hfind : serverObjects.find? (fun serverObj => serverObj.id == o.id) with
      | none =>
          have hall : ∀ so ∈ serverObjects, so.id ≠ o.id := by
            rw [List.find?_eq_none] at hfind
            intro so hso
            simpa using hfind so hso
          have hpos : (decide (∀ so ∈ serverObjects, so.id ≠ o.id)) = true :=
            decide_eq_true hall
          simp only [Option.isSome_none, Bool.false_eq_true, if_false, hpos,
            if_true]
          rw [ih (acc ++ [o])]
          simp
      | some so =>
          have hmem : so ∈ serverObjects := List.mem_of_find?_eq_some hfind
          have hid : so.id = o.id := by
            have := List.find?_some hfind
            simpa using this
          have hneg : ¬ (∀ x ∈ serverObjects, x.id ≠ o.id) := fun hall =>
            hall so hmem hid
          have hneg' : (decide (∀ x ∈ serverObjects, x.id ≠ o.id)) = false :=
            decide_eq_false hneg
          simp only [Option.isSome_some, if_true, hneg', Bool.false_eq_true,
            if_false]
          exact ih acc

lemma loadObjects_success_cache (s : ServiceState) (record? : Option RawRecord)
    (now : String) :
    ∃ c, (loadObjects s (.success record?) now).1.cache = some c ∧
      (loadObjects s (.success record?) now).2 = c.objects ∧
      (loadObjects s (.success record?) now).1.lastVersion = c.version := by
  cases record? <;> simp [loadObjects]

lemma flushRound_spec (s : ServiceState) (c : StorageData)
    (ops : List PendingOp) (now : String)
    (hc : s.cache = some c) (hp : s.isProcessing = false) (hops : ops ≠ []) :
    flushRound s ops now =
      { cache := some { (s.pendingOperations ++ ops).foldl applyOp c with
                        version := s.lastVersion + 1, lastUpdated := now },
        pendingOperations := [], isProcessing := false,
        lastVersion := s.lastVersion + 1 } := by
  unfold flushRound
  rw [foldl_queueOperation]
  have hq' : ({ s with
      pendingOperations := s.pendingOperations ++ ops } : ServiceState).pendingOperations ≠ [] := by
    simp [hops]
  have hc' : ({ s with
      pendingOperations := s.pendingOperations ++ ops } : ServiceState).cache = some c := hc
  have hp' : ({ s with
      pendingOperations := s.pendingOperations ++ ops } : ServiceState).isProcessing = false := hp
  unfold processPendingOperations
  rw [flushBegin_run _ c now hc' hp' hq']
  simp [flushResolve]

lemma runRounds_spec (rounds : List (List PendingOp × String)) :
    ∀ (s : ServiceState) (c : StorageData),
      (∀ r ∈ rounds, r.1 ≠ []) →
      s.cache = some c → s.isProcessing = false →
      s.pendingOperations = [] → c.version = s.lastVersion →
      ∃ c', runRounds s rounds =
          { cache := some c', pendingOperations := [], isProcessing := false,
            lastVersion := s.lastVersion + rounds.length } ∧
        c'.version = s.lastVersion + rounds.length := by
  induction rounds with
  | nil =>
      intro s c hne hc hp hq hv
      refine ⟨c, ?_, by simpa using hv⟩
      cases s
      simp_all [runRounds]
  | cons r rs ih =>
      intro s c hne hc hp hq hv
      have hr : r.1 ≠ [] := hne r (List.mem_cons_self r rs)
      have hstep := flushRound_spec s c r.1 r.2 hc hp hr
      have hrun : runRounds s (r :: rs) = runRounds (flushRound s r.1 r.2) rs := by
        simp [runRounds]
      obtain ⟨c', hfold, hver⟩ :=
        ih (flushRound s r.1 r.2)
          { (s.pendingOperations ++ r.1).foldl applyOp c with
            version := s.lastVersion + 1, lastUpdated := r.2 }
          (fun q hq' => hne q (List.mem_cons_of_mem r hq'))
          (by rw [hstep]) (by rw [hstep]) (by rw [hstep]) (by rw [hstep])
      refine ⟨c', ?_, ?_⟩
      · rw [hrun, hfold, hstep]
        have : s.lastVersion + 1 + rs.length = s.lastVersion + (rs.length + 1) := by
          omega
        simp [this]
      · rw [hver, hstep]
        simp
        omega

/-! ## Claim theorems -/

/-- **C1**: a successful `syncObjects(L)` returns the server-loaded items
(verbatim, server values winning for every id the server has) followed by
exactly those items of `L` whose id occurs in no server item, preserved
verbatim and in their order in `L`; and when loading the remote document
fails, the returned list is exactly `L` unchanged. -/
theorem syncObjects_merge_spec (s : ServiceState) (now : String)
    (record? : Option RawRecord) (localObjects : List StoredObject) :
    ((syncObjects s (.success record?) now localObjects).2 =
      (loadObjects s (.success record?) now).2 ++
        localObjects.filter
          (fun o => decide (∀ so ∈ (loadObjects s (.success record?) now).2,
            so.id ≠ o.id))) ∧
    (syncObjects s .failure now localObjects).2 = localObjects := by
  constructor
  · simp only [syncObjects]
    exact merge_foldl _ _ _
  · have h2 : (loadObjects s .failure now).2 = [] := by simp [loadObjects]
    simp only [syncObjects, h2]
    rw [merge_foldl]
    simp

/-- **C10**: a successful `syncObjects(L)` leaves the cache equal to the
freshly loaded server document only — `getCurrentObjects` afterwards returns
exactly the server's items — while the returned merged list is that same
server list followed by the local-only items, which are therefore not added
to the cache. -/
theorem syncObjects_cache_server_only (s : ServiceState) (now : String)
    (record? : Option RawRecord) (localObjects : List StoredObject) :
    getCurrentObjects (syncObjects s (.success record?) now localObjects).1 =
      (loadObjects s (.success record?) now).2 ∧
    (syncObjects s (.success record?) now localObjects).2 =
      getCurrentObjects (syncObjects s (.success record?) now localObjects).1 ++
        localObjects.filter
          (fun o => decide (∀ so ∈ (loadObjects s (.success record?) now).2,
            so.id ≠ o.id)) := by
  obtain ⟨c, hc, hobj, _⟩ := loadObjects_success_cache s record? now
  have hcur :
      getCurrentObjects (syncObjects s (.success record?) now localObjects).1 =
        (loadObjects s (.success record?) now).2 := by
    simp only [syncObjects]
    simp [getCurrentObjects, hc, hobj]
  refine ⟨hcur, ?_⟩
  rw [hcur]
  simp only [syncObjects]
  exact merge_foldl _ _ _

/-- **C3, counterexample**: on a state with a populated cache but an empty
pending queue, `forceSave` issues no PUT at all and still returns `true` —
even when the (never consulted) network would have failed — so the claim
"the returned boolean is true iff a PUT was performed and succeeded; it is
never true when no PUT was issued" is false on the code: the guard at line
80 returns `true` without touching the network. -/
theorem forceSave_true_without_put :
    (forceSave
        { cache := some (emptyDocument "t0"), pendingOperations := [],
          isProcessing := false, lastVersion := 1 } "t1" false).result = true ∧
    (forceSave
        { cache := some (emptyDocument "t0"), pendingOperations := [],
          isProcessing := false, lastVersion := 1 } "t1" false).putIssued
      = false := by
  constructor <;> rfl

/-- **C3, amended**: `forceSave` returns `false` exactly when a PUT was
issued and failed; it returns `true` both when an issued PUT succeeded and
when no PUT was issued at all (the guard's early `return true` when a flush
is in flight, the queue is empty, or the cache is absent). -/
theorem forceSave_result_iff (s : ServiceState) (now : String) (putOk : Bool) :
    (forceSave s now putOk).result =
      (!(forceSave s now putOk).putIssued || putOk) := by
  unfold forceSave processPendingOperations
  cases h : flushBegin s now with
  | mk s1 body =>
      cases body with
      | none => simp
      | some b => cases putOk <;> simp [flushResolve]

/-- **C7**: every failure of the GET (network error, non-2xx, malformed
payload — all of which reach the same `catch`) is swallowed: `loadObjects`
installs the empty document `{items: [], version: 1, lastUpdated: now}` as
the cache and returns `[]`; on success with a well-formed record (truthy
fields) it replaces the cache by the fetched document and records the
fetched version as the last-known version, returning the fetched items. -/
theorem loadObjects_spec (s : ServiceState) (now : String)
    (objs : List StoredObject) (lu : String) (v : Nat)
    (hv : v ≠ 0) (hlu : lu ≠ "") :
    loadObjects s .failure now =
      ({ s with cache := some (emptyDocument now) }, []) ∧
    loadObjects s (.success none) now =
      ({ s with cache := some (emptyDocument now), lastVersion := 1 }, []) ∧
    loadObjects s
        (.success (some { objects := some objs, lastUpdated := some lu,
                          version := some v })) now =
      ({ s with cache := some { objects := objs, lastUpdated := lu, version := v },
                lastVersion := v },
       objs) := by
  refine ⟨?_, ?_, ?_⟩
  · simp [loadObjects, emptyDocument]
  · by_cases hnow : now = "" <;>
      simp [loadObjects, emptyDocument, jsOrList, jsOrStr, jsOrNat, hnow]
  · simp [loadObjects, jsOrList, jsOrStr, jsOrNat, hv, hlu]

/-- **C7, witness**: the theorem applied at a concrete state and record. -/
theorem loadObjects_spec_witness :
    loadObjects initialState .failure "t1" =
      ({ initialState with cache := some (emptyDocument "t1") }, []) ∧
    loadObjects initialState (.success none) "t1" =
      ({ initialState with
          cache := some (emptyDocument "t1"), lastVersion := 1 }, []) ∧
    loadObjects initialState
        (.success (some { objects := some [], lastUpdated := some "L",
                          version := some 7 })) "t1" =
      ({ initialState with
          cache := some { objects := [], lastUpdated := "L", version := 7 },
          lastVersion := 7 },
       []) :=
  loadObjects_spec initialState "t1" [] "L" 7 (by decide) (by decide)

/-- **C8**: the reset operation reinitialises the Remote Store's document to
the empty-document shape with exactly one immediate PUT, bypasses the
operation queue (the pending list is untouched, so nothing is coalesced or
debounced), and the caller independently clears its local view to `[]`. -/
theorem resetObjects_spec (s : ServiceState) (now : String) :
    (handleReset s now).1 = [] ∧
    (handleReset s now).2.2 = emptyDocument now ∧
    (handleReset s now).2.1.pendingOperations = s.pendingOperations ∧
    (handleReset s now).2.1.cache = s.cache := by
  exact ⟨rfl, rfl, rfl, rfl⟩

/-- **C4**: when the PUT of a flush fails, the flush returns `false`, the
pending queue is left empty (the operations are discarded, not re-queued and
not retried), and the cache keeps the effect of the applied operations — the
local mutation is not rolled back (the last-known version is also not
advanced, so the failed bump is never recorded). -/
theorem flush_failure_spec (s : ServiceState) (c : StorageData) (now : String)
    (hc : s.cache = some c) (hp : s.isProcessing = false)
    (hq : s.pendingOperations ≠ []) :
    (processPendingOperations s now false).result = false ∧
    (processPendingOperations s now false).state.pendingOperations = [] ∧
    (processPendingOperations s now false).state.cache =
      some { s.pendingOperations.foldl applyOp c with
             version := s.lastVersion + 1, lastUpdated := now } ∧
    (processPendingOperations s now false).state.lastVersion = s.lastVersion := by
  unfold processPendingOperations
  rw [flushBegin_run s c now hc hp hq]
  simp [flushResolve]

/-- **C4, witness**: the theorem applied to a concrete failing flush. -/
theorem flush_failure_spec_witness :
    (processPendingOperations
        { cache := some (emptyDocument "t0"),
          pendingOperations := [.add (sampleObject "a" 1 2)],
          isProcessing := false, lastVersion := 1 } "t1" false).result = false ∧
    (processPendingOperations
        { cache := some (emptyDocument "t0"),
          pendingOperations := [.add (sampleObject "a" 1 2)],
          isProcessing := false, lastVersion := 1 } "t1" false).state.pendingOperations = [] ∧
    (processPendingOperations
        { cache := some (emptyDocument "t0"),
          pendingOperations := [.add (sampleObject "a" 1 2)],
          isProcessing := false, lastVersion := 1 } "t1" false).state.cache =
      some { ([PendingOp.add (sampleObject "a" 1 2)].foldl applyOp
               (emptyDocument "t0")) with
             version := 1 + 1, lastUpdated := "t1" } ∧
    (processPendingOperations
        { cache := some (emptyDocument "t0"),
          pendingOperations := [.add (sampleObject "a" 1 2)],
          isProcessing := false, lastVersion := 1 } "t1" false).state.lastVersion = 1 :=
  flush_failure_spec
    { cache := some (emptyDocument "t0"),
      pendingOperations := [.add (sampleObject "a" 1 2)],
      isProcessing := false, lastVersion := 1 }
    (emptyDocument "t0") "t1" rfl rfl (by decide)

/-- **C5**: a flush that actually runs (cache present, no flush in flight,
at least one queued operation) applies every queued operation to the cache
in FIFO enqueue order, leaves the pending queue empty before the PUT
resolves, and issues exactly one PUT carrying the whole document; and for
two updates to the same id the later one determines the stored
coordinates. -/
theorem flush_applies_fifo (s : ServiceState) (c : StorageData) (now : String)
    (hc : s.cache = some c) (hp : s.isProcessing = false)
    (hq : s.pendingOperations ≠ []) :
    (flushBegin s now).1.pendingOperations = [] ∧
    (flushBegin s now).2 =
      some { objects := (s.pendingOperations.foldl applyOp c).objects,
             lastUpdated := now, version := s.lastVersion + 1 } ∧
    (flushBegin s now).1.cache = (flushBegin s now).2 ∧
    (runEvents s [.beginFlush now]).2 = 1 ∧
    (∀ (d : StorageData) (i : String) (x₁ y₁ x₂ y₂ : Int),
      applyOp (applyOp d (.update i x₁ y₁)) (.update i x₂ y₂) =
        applyOp d (.update i x₂ y₂)) := by
  have hrun := flushBegin_run s c now hc hp hq
  refine ⟨?_, ?_, ?_, ?_, ?_⟩
  · rw [hrun]
  · rw [hrun]
  · rw [hrun]
  · simp [runEvents, stepEvent, hrun]
  · intro d i x₁ y₁ x₂ y₂
    simp only [applyOp, List.map_map]
    congr 1
    refine List.map_congr_left ?_
    intro obj _
    by_cases h : (obj.id == i) = true
    · simp [Function.comp, h]
    · simp [Function.comp, h]

/-- **C5, witness**: the theorem applied to a concrete flush of two queued
operations. -/
theorem flush_applies_fifo_witness :
    (flushBegin
        { cache := some (emptyDocument "t0"),
          pendingOperations := [.add (sampleObject "a" 1 2), .update "a" 5 5],
          isProcessing := false, lastVersion := 1 } "t1").1.pendingOperations = [] ∧
    (flushBegin
        { cache := some (emptyDocument "t0"),
          pendingOperations := [.add (sampleObject "a" 1 2), .update "a" 5 5],
          isProcessing := false, lastVersion := 1 } "t1").2 =
      some { objects :=
               ([PendingOp.add (sampleObject "a" 1 2),
                 PendingOp.update "a" 5 5].foldl applyOp
                 (emptyDocument "t0")).objects,
             lastUpdated := "t1", version := 1 + 1 } ∧
    (flushBegin
        { cache := some (emptyDocument "t0"),
          pendingOperations := [.add (sampleObject "a" 1 2), .update "a" 5 5],
          isProcessing := false, lastVersion := 1 } "t1").1.cache =
      (flushBegin
        { cache := some (emptyDocument "t0"),
          pendingOperations := [.add (sampleObject "a" 1 2), .update "a" 5 5],
          isProcessing := false, lastVersion := 1 } "t1").2 ∧
    (runEvents
        { cache := some (emptyDocument "t0"),
          pendingOperations := [.add (sampleObject "a" 1 2), .update "a" 5 5],
          isProcessing := false, lastVersion := 1 } [.beginFlush "t1"]).2 = 1 ∧
    applyOp (applyOp (emptyDocument "t0") (.update "a" 1 2)) (.update "a" 5 5) =
      applyOp (emptyDocument "t0") (.update "a" 5 5) := by
  have h := flush_applies_fifo
    { cache := some (emptyDocument "t0"),
      pendingOperations := [.add (sampleObject "a" 1 2), .update "a" 5 5],
      isProcessing := false, lastVersion := 1 }
    (emptyDocument "t0") "t1" rfl rfl (by decide)
  exact ⟨h.1, h.2.1, h.2.2.1, h.2.2.2.1,
    h.2.2.2.2 (emptyDocument "t0") "a" 1 2 5 5⟩

/-- **C2**: the document version increases monotonically across successful
writes: each successful flush stores `lastKnownVersion + 1` and records it
as the new last-known version, so after `N` successful flush rounds (each a
nonempty burst of operations followed by a successful PUT) starting from a
loaded version of 1, the stored document's version and the last-known
version both equal `N + 1`. -/
theorem version_monotonic (s : ServiceState) (c : StorageData)
    (rounds : List (List PendingOp × String))
    (hne : ∀ r ∈ rounds, r.1 ≠ [])
    (hc : s.cache = some c) (hp : s.isProcessing = false)
    (hq : s.pendingOperations = [])
    (hv : c.version = 1) (hl : s.lastVersion = 1) :
    ∃ c', (runRounds s rounds).cache = some c' ∧
      c'.version = rounds.length + 1 ∧
      (runRounds s rounds).lastVersion = rounds.length + 1 := by
  obtain ⟨c', heq, hver⟩ :=
    runRounds_spec rounds s c hne hc hp hq (by rw [hv, hl])
  refine ⟨c', by rw [heq], ?_, ?_⟩
  · rw [hver]
    omega
  · rw [heq]
    show s.lastVersion + rounds.length = rounds.length + 1
    omega

/-- **C2, witness**: two successful flushes starting from version 1 leave
both the stored and the last-known version at 3. -/
theorem version_monotonic_witness :
    ∃ c', (runRounds
        { cache := some (emptyDocument "t0"), pendingOperations := [],
          isProcessing := false, lastVersion := 1 }
        [([.add (sampleObject "a" 1 2)], "t1"),
         ([.update "a" 5 5], "t2")]).cache = some c' ∧
      c'.version = 2 + 1 ∧
      (runRounds
        { cache := some (emptyDocument "t0"), pendingOperations := [],
          isProcessing := false, lastVersion := 1 }
        [([.add (sampleObject "a" 1 2)], "t1"),
         ([.update "a" 5 5], "t2")]).lastVersion = 2 + 1 :=
  version_monotonic
    { cache := some (emptyDocument "t0"), pendingOperations := [],
      isProcessing := false, lastVersion := 1 }
    (emptyDocument "t0")
    [([.add (sampleObject "a" 1 2)], "t1"), ([.update "a" 5 5], "t2")]
    (by decide) rfl rfl rfl rfl rfl

/-- **C6**: add has replace-on-collision (upsert) semantics: applying
`add(X)` removes every existing item whose id equals `X.id` and appends `X`;
hence queueing two `addObject` calls with colliding ids and flushing leaves
a cache whose items with that id are exactly the second added item — one
item, at the second item's coordinates. -/
theorem add_replaces_on_collision (s : ServiceState) (c : StorageData)
    (X₁ X₂ : StoredObject) (o₁ o₂ : LoadOutcome) (n₁ n₂ now : String)
    (hc : s.cache = some c) (hp : s.isProcessing = false)
    (hq : s.pendingOperations = []) (hid : X₁.id = X₂.id) :
    (∀ (d : StorageData) (X : StoredObject),
        (applyOp d (.add X)).objects =
          d.objects.filter (fun o => o.id != X.id) ++ [X]) ∧
    ∃ c₂,
      (flushBegin ((addObject ((addObject s X₁ o₁ n₁).1) X₂ o₂ n₂).1) now).1.cache
          = some c₂ ∧
      c₂.objects = c.objects.filter (fun o => o.id != X₂.id) ++ [X₂] ∧
      c₂.objects.filter (fun o => o.id == X₂.id) = [X₂] := by
  constructor
  · intro d X
    rfl
  · have h1 : (addObject s X₁ o₁ n₁).1 =
        { s with pendingOperations := [.add X₁] } := by
      simp [addObject, hc, queueOperation, hq]
    have h2 : (addObject ((addObject s X₁ o₁ n₁).1) X₂ o₂ n₂).1 =
        { s with pendingOperations := [.add X₁, .add X₂] } := by
      rw [h1]
      simp [addObject, hc, queueOperation]
    have hc2 : ({ s with
        pendingOperations := [PendingOp.add X₁, PendingOp.add X₂] } :
          ServiceState).cache = some c := hc
    have hp2 : ({ s with
        pendingOperations := [PendingOp.add X₁, PendingOp.add X₂] } :
          ServiceState).isProcessing = false := hp
    have hq2 : ({ s with
        pendingOperations := [PendingOp.add X₁, PendingOp.add X₂] } :
          ServiceState).pendingOperations ≠ [] := by simp
    have hobjs : (List.foldl applyOp c [PendingOp.add X₁, PendingOp.add X₂]).objects
        = c.objects.filter (fun o => o.id != X₂.id) ++ [X₂] := by
      simp [applyOp, List.filter_append, List.filter_filter, hid, Bool.and_self]
    rw [h2, flushBegin_run _ c now hc2 hp2 hq2]
    refine ⟨{ List.foldl applyOp c [PendingOp.add X₁, PendingOp.add X₂] with
              version := s.lastVersion + 1, lastUpdated := now },
            rfl, hobjs, ?_⟩
    show ((List.foldl applyOp c [PendingOp.add X₁, PendingOp.add X₂]).objects.filter
      (fun o => o.id == X₂.id)) = [X₂]
    rw [hobjs, List.filter_append, List.filter_filter]
    simp

/-- **C6, witness**: adding id `"a"` and then another id `"a"` at (5,5) and
flushing leaves exactly one item with id `"a"`, at (5,5). -/
theorem add_replaces_on_collision_witness :
    (applyOp (emptyDocument "t0") (.add (sampleObject "a" 1 2))).objects =
      (emptyDocument "t0").objects.filter
        (fun o => o.id != (sampleObject "a" 1 2).id) ++ [sampleObject "a" 1 2] ∧
    ∃ c₂,
      (flushBegin ((addObject ((addObject
          { cache := some (emptyDocument "t0"), pendingOperations := [],
            isProcessing := false, lastVersion := 1 }
          (sampleObject "a" 1 2) .failure "n₁").1)
          (sampleObject "a" 5 5) .failure "n₂").1) "t1").1.cache = some c₂ ∧
      c₂.objects = (emptyDocument "t0").objects.filter
          (fun o => o.id != (sampleObject "a" 5 5).id) ++ [sampleObject "a" 5 5] ∧
      c₂.objects.filter (fun o => o.id == (sampleObject "a" 5 5).id) =
        [sampleObject "a" 5 5] := by
  have h := add_replaces_on_collision
    { cache := some (emptyDocument "t0"), pendingOperations := [],
      isProcessing := false, lastVersion := 1 }
    (emptyDocument "t0") (sampleObject "a" 1 2) (sampleObject "a" 5 5)
    .failure .failure "n₁" "n₂" "t1" rfl rfl rfl (by decide)
  exact ⟨h.1 (emptyDocument "t0") (sampleObject "a" 1 2), h.2⟩

/-- **C9**: at most one flush is ever in flight: a flush requested while
another has begun and not yet resolved, or while the pending queue is empty,
or while the cache is absent, performs no cache mutation and issues no PUT —
so two flushes triggered back-to-back before the first's network call
resolves issue exactly one PUT. -/
theorem flush_mutual_exclusion :
    (∀ (s : ServiceState) (now : String),
        s.isProcessing = true ∨ s.pendingOperations = [] ∨ s.cache = none →
        flushBegin s now = (s, none)) ∧
    (∀ (s : ServiceState) (c : StorageData) (now₁ now₂ : String) (ok : Bool),
        s.cache = some c → s.isProcessing = false → s.pendingOperations ≠ [] →
        (runEvents s
          [.beginFlush now₁, .beginFlush now₂, .resolveFlush ok]).2 = 1) := by
  refine ⟨flushBegin_noop, ?_⟩
  intro s c now₁ now₂ ok hc hp hq
  have h1 := flushBegin_run s c now₁ hc hp hq
  have h2 : flushBegin
      { s with cache := some { s.pendingOperations.foldl applyOp c with
                               version := s.lastVersion + 1, lastUpdated := now₁ },
               pendingOperations := [], isProcessing := true } now₂ =
      ({ s with cache := some { s.pendingOperations.foldl applyOp c with
                                version := s.lastVersion + 1, lastUpdated := now₁ },
                pendingOperations := [], isProcessing := true }, none) :=
    flushBegin_noop _ now₂ (Or.inl rfl)
  simp [runEvents, stepEvent, h1, h2, flushResolve]

/-- **C9, witness**: a flush on an empty queue is a no-op issuing no PUT,
and two back-to-back flushes from a ready state issue exactly one PUT. -/
theorem flush_mutual_exclusion_witness :
    flushBegin
        { cache := some (emptyDocument "t0"), pendingOperations := [],
          isProcessing := false, lastVersion := 1 } "t1" =
      ({ cache := some (emptyDocument "t0"), pendingOperations := [],
         isProcessing := false, lastVersion := 1 }, none) ∧
    (runEvents
        { cache := some (emptyDocument "t0"),
          pendingOperations := [.add (sampleObject "a" 1 2)],
          isProcessing := false, lastVersion := 1 }
        [.beginFlush "t1", .beginFlush "t2", .resolveFlush true]).2 = 1 :=
  ⟨flush_mutual_exclusion.1 _ "t1" (Or.inr (Or.inl rfl)),
   flush_mutual_exclusion.2 _ (emptyDocument "t0") "t1" "t2" true rfl rfl
     (by decide)⟩
